import Mathlib

/-!
Verification of the auth-service repository: a shallow embedding of the
user-registration / authentication backend (Rust, axum + diesel) and proofs
about its service, repository and HTTP-handler layers.

Conventions of the embedding:
* async functions become pure functions; the database state (`DB`) is
  threaded explicitly through every operation that holds a connection;
* a Rust panic (`unwrap` / `expect` on `Err`, or an explicit `panic!` call)
  becomes the `RepoResult.panic` constructor;
* external fallible effects that the code branches on are surfaced as
  explicit boolean inputs (`poolFail` for a pool-checkout failure,
  `queryFail` for a low-level store error on a SELECT, `signFail` for a
  token-signing failure) and explicit data inputs (`salt` for the fresh
  random bcrypt salt, `now` for the clock reading in epoch seconds);
* `chrono::NaiveDateTime` timestamps are modelled as epoch seconds (`Int`);
  `i32` / `i64` values are modelled as `Int` (no arithmetic in the code can
  overflow them on the inputs considered), and the one `as usize` cast in
  `encode_jwt` is modelled exactly by `toUsize`;
* the free-text profile column is named `interests` in `src/dtos/users.rs`
  and `src/adapters/postgres/models.rs` and `email` at some call sites of
  the same snapshot; the spec calls it `profile_field`.  The embedding uses
  the DTO name `interests` throughout.
-/

/-- Output of the external salted adaptive hash (`pwhash::bcrypt`).  The
opaque hash string is modelled by the data it commits to — the random salt
and the password that was hashed — since the real encoding is injective and
`verify` recomputes the hash of the plaintext with the stored salt. -/
structure BcryptHash where
  salt : Nat
  pwd : String
deriving Repr, DecidableEq

/-- Model of `pwhash::bcrypt::hash`: hashes a password with a fresh random
salt; the ambient randomness is made an explicit `salt` argument. -/
def bcrypt.hash (salt : Nat) (password : String) : BcryptHash :=
  { salt := salt, pwd := password }

/-- Model of `pwhash::bcrypt::verify`: the hasher's constant-time comparison
of the plaintext against the stored hash. -/
def bcrypt.verify (password : String) (h : BcryptHash) : Bool :=
  h.pwd == password

/-- Rust cast `i64 as usize` (two's-complement reinterpretation into a
64-bit unsigned value), used by `encode_jwt` on timestamps. -/
def toUsize (i : Int) : Nat :=
  (i % (2 ^ 64)).toNat

/-- `src/dtos/users.rs` `UserCreateDTO`: the service-layer create shape with
the already-hashed password and the registration timestamp. -/
structure UserCreateDTO where
  username : String
  hashed_pwd : BcryptHash
  registration_date : Int
  interests : String
deriving Repr, DecidableEq

/-- `src/dtos/users.rs` `UserDBDTO`: the service-layer row shape, including
the stored password hash. -/
structure UserDBDTO where
  id : Int
  username : String
  hashed_pwd : BcryptHash
  registration_date : Int
  interests : String
deriving Repr, DecidableEq

/-- `src/dtos/users.rs` `UserCreateInDTO`: the inbound registration body
`{username, password, profile_field}` with the plaintext password. -/
structure UserCreateInDTO where
  username : String
  password : String
  interests : String
deriving Repr, DecidableEq

/-- `src/dtos/users.rs` `UserOutDTO`: the outbound public projection
`{id, username, profile_field}` — it has no password-carrying field. -/
structure UserOutDTO where
  id : Int
  username : String
  interests : String
deriving Repr, DecidableEq

/-- `src/dtos/users.rs` `SignInData`: the login body `{username, password}`. -/
structure SignInData where
  username : String
  password : String
deriving Repr, DecidableEq

/-- `src/adapters/postgres/models.rs` `UserModel`: the storage row shape. -/
structure UserModel where
  id : Int
  username : String
  hashed_pwd : BcryptHash
  registration_date : Int
  interests : String
deriving Repr, DecidableEq

/-- The field-by-field conversion from a storage row to `UserDBDTO` that
`UsersRepo::create_from_dto` and `UsersRepo::get_one_by` both write out
inline in `src/adapters/postgres/repositories/users.rs`. -/
def UserModel.to_db_dto (u : UserModel) : UserDBDTO :=
  { id := u.id, username := u.username, hashed_pwd := u.hashed_pwd,
    registration_date := u.registration_date, interests := u.interests }

/-- `src/adapters/postgres/specifications/mod.rs` `CompType`: the predicate
comparison vocabulary. -/
inductive CompType (T : Type) where
  | Equals : T → CompType T
  | Gte : T → CompType T
  | Lte : T → CompType T
  | Lt : T → CompType T
  | Gt : T → CompType T
deriving Repr, DecidableEq

/-- `src/adapters/postgres/specifications/mod.rs` `UsersSpecification`: a
predicate on the users table, keyed on id or username. -/
inductive UsersSpecification where
  | Id : CompType Int → UsersSpecification
  | Username : CompType String → UsersSpecification
deriving Repr, DecidableEq

/-- The two predicate shapes `UsersRepo::get_one_by` implements (the first
two arms of its `match`); every other shape falls into its panic arm. -/
def UsersSpecification.isEquals : UsersSpecification → Bool
  | .Id (.Equals _) => true
  | .Username (.Equals _) => true
  | _ => false

/-- Modelled from the spec: the `users` table and its schema
(`src/adapters/postgres/schema.rs` is referenced by the code but absent from
the source tree).  Per the spec, the table has one row shape matching the
User entity, `id` is a store-assigned unique integer (`next_id` is the store
sequence backing it), and `username` uniqueness is enforced by the store. -/
structure DB where
  rows : List UserModel
  next_id : Int
deriving Repr, DecidableEq

/-- Result of a code path that may end the request fatally:
`RepoResult.panic` models a Rust panic with its message. -/
inductive RepoResult (α : Type) where
  | ok : α → RepoResult α
  | panic : String → RepoResult α
deriving Repr, DecidableEq

/-- `src/adapters/postgres/repositories/unit_of_work.rs` `UnitOfWork`: one
checked-out pooled connection; what the connection reaches is the store. -/
structure UnitOfWork where
  db : DB
deriving Repr, DecidableEq

/-- `UnitOfWorkFactory::create_uow`: `self.conn_pool.get().await.unwrap()` —
a pool-checkout failure (`poolFail`) hits the `unwrap` and panics; a
successful checkout yields the unit of work. -/
def UnitOfWorkFactory.create_uow (db : DB) (poolFail : Bool) : RepoResult UnitOfWork :=
  if poolFail then .panic "called Result unwrap on an Err value"
  else .ok { db := db }

/-- The INSERT .. RETURNING executed by `UsersRepo::create_from_dto`.
Modelled from the spec for the store side: username uniqueness is enforced
by the store and a violation surfaces as a creation failure (`Err`); a
successful insert assigns the next sequence id and appends the row. -/
def dbInsert (dto : UserCreateDTO) (db : DB) : Except String (UserModel × DB) :=
  if db.rows.any (fun r => r.username == dto.username) then
    .error "duplicate key value violates unique constraint"
  else
    let row : UserModel :=
      { id := db.next_id, username := dto.username, hashed_pwd := dto.hashed_pwd,
        registration_date := dto.registration_date, interests := dto.interests }
    .ok (row, { rows := db.rows ++ [row], next_id := db.next_id + 1 })

/-- `src/adapters/postgres/repositories/users.rs`
`UsersRepo::create_from_dto`: builds the new-row shape from the create DTO,
inserts it and `.expect`s success — an insert rejection (duplicate username)
panics with the expect message; on success the returned row is converted
field-by-field to `UserDBDTO`. -/
def UsersRepo.create_from_dto (user_create_data : UserCreateDTO) (uow : UnitOfWork) :
    RepoResult (UserDBDTO × UnitOfWork) :=
  match dbInsert user_create_data uow.db with
  | .error _ => .panic "Error saving new post"
  | .ok (user, db2) => .ok (user.to_db_dto, { db := db2 })

/-- A SELECT with `.first(..).optional()` against the users table:
`Ok (some row)` on a match, `Ok none` on no match, and `Err` on a low-level
store error (injected by `queryFail`). -/
def runQuery (db : DB) (pred : UserModel → Bool) (queryFail : Bool) :
    Except String (Option UserModel) :=
  if queryFail then .error "low-level query error"
  else .ok (db.rows.find? pred)

/-- The panic message of the unsupported-specification arm of
`UsersRepo::get_one_by`. -/
def unsupported_spec_msg : String :=
  "Unsupported specification: only equals specifications for id and email supported for users now."

/-- `src/adapters/postgres/repositories/users.rs` `UsersRepo::get_one_by`:
matches the specification — equality on id does a primary-key lookup,
equality on username filters on the username column, and every other shape
panics; then the query result is mapped `Ok (some row)` to `some dto`,
`Ok none` to `none`, and `Err _` also to `none`. -/
def UsersRepo.get_one_by (specification : UsersSpecification) (uow : UnitOfWork)
    (queryFail : Bool) : RepoResult (Option UserDBDTO × UnitOfWork) :=
  let user_db : RepoResult (Except String (Option UserModel)) :=
    match specification with
    | .Id (.Equals spec_id) =>
        .ok (runQuery uow.db (fun r => r.id == spec_id) queryFail)
    | .Username (.Equals spec_username) =>
        .ok (runQuery uow.db (fun r => r.username == spec_username) queryFail)
    | _ => .panic unsupported_spec_msg
  match user_db with
  | .panic m => .panic m
  | .ok (.ok (some user)) => .ok (some user.to_db_dto, uow)
  | .ok (.ok none) => .ok (none, uow)
  | .ok (.error _) => .ok (none, uow)

/-- `src/services/users.rs` `UsersService::create_user`: hashes the plaintext
with a fresh random salt, stamps the current time as registration timestamp,
creates a unit of work and delegates to the repository create. -/
def UsersService.create_user (user : UserCreateInDTO) (db : DB) (salt : Nat)
    (now : Int) (poolFail : Bool) : RepoResult (UserDBDTO × DB) :=
  let hashed_pwd := bcrypt.hash salt user.password
  let registration_date := now
  let user_create_db_dto : UserCreateDTO :=
    { username := user.username, hashed_pwd := hashed_pwd,
      registration_date := registration_date, interests := user.interests }
  match UnitOfWorkFactory.create_uow db poolFail with
  | .panic m => .panic m
  | .ok uow =>
    match UsersRepo.create_from_dto user_create_db_dto uow with
    | .panic m => .panic m
    | .ok (dto, uow2) => .ok (dto, uow2.db)

/-- `src/services/users.rs` `UsersService::find_by_username`: creates a unit
of work and looks up with a `Username Equals` specification. -/
def UsersService.find_by_username (username : String) (db : DB)
    (poolFail queryFail : Bool) : RepoResult (Option UserDBDTO × DB) :=
  match UnitOfWorkFactory.create_uow db poolFail with
  | .panic m => .panic m
  | .ok uow =>
    match UsersRepo.get_one_by (.Username (.Equals username)) uow queryFail with
    | .panic m => .panic m
    | .ok (r, uow2) => .ok (r, uow2.db)

/-- `src/services/users.rs` `UsersService::authenticate_user`: looks up with
a `Username Equals` specification; if a user is found and `bcrypt::verify`
accepts the plaintext against the stored hash the user is returned, in every
other case `none` is returned. -/
def UsersService.authenticate_user (username : String) (password : String)
    (db : DB) (poolFail queryFail : Bool) : RepoResult (Option UserDBDTO × DB) :=
  match UnitOfWorkFactory.create_uow db poolFail with
  | .panic m => .panic m
  | .ok uow =>
    match UsersRepo.get_one_by (.Username (.Equals username)) uow queryFail with
    | .panic m => .panic m
    | .ok (user, uow2) =>
      match user with
      | some user_db =>
        if bcrypt.verify password user_db.hashed_pwd then .ok (some user_db, uow2.db)
        else .ok (none, uow2.db)
      | none => .ok (none, uow2.db)

/-- `src/main.rs` `Claims`: the signed claim set — expiry time, issued-at
time, and the username. -/
structure Claims where
  exp : Nat
  iat : Nat
  username : String
deriving Repr, DecidableEq

/-- Output of `jsonwebtoken::encode`: the token string is modelled by the
data it commits to — the claim set and the signing secret (the header is the
fixed default; the real serialization is injective, so decoding the token
recovers exactly this claim set). -/
structure EncodedToken where
  claims : Claims
  secret : String
deriving Repr, DecidableEq

/-- The HTTP status codes the `axum::http::StatusCode` values used by the
handlers come from (a larger vocabulary than the handlers produce, so that
"no other status" is a meaningful statement). -/
inductive StatusCode where
  | OK
  | BAD_REQUEST
  | UNAUTHORIZED
  | NOT_FOUND
  | INTERNAL_SERVER_ERROR
deriving Repr, DecidableEq

/-- `src/main.rs` `encode_jwt`: reads the clock once (`now`, epoch seconds),
sets `exp = (now + 24h) as usize` and `iat = now as usize`, builds the claim
set and signs it with the fixed secret "random"; a signing failure
(`signFail`) is mapped to `INTERNAL_SERVER_ERROR`. -/
def encode_jwt (username : String) (now : Int) (signFail : Bool) :
    Except StatusCode EncodedToken :=
  let secret : String := "random"
  let expire : Int := 24 * 60 * 60
  let exp : Nat := toUsize (now + expire)
  let iat : Nat := toUsize now
  let claim : Claims := { iat := iat, exp := exp, username := username }
  if signFail then .error .INTERNAL_SERVER_ERROR
  else .ok { claims := claim, secret := secret }

/-- `src/main.rs` `create_user` handler (POST /register): calls the service
create and answers with the `UserOutDTO` projection `{username, id,
profile_field}` of the created user. -/
def create_user (user_create_in : UserCreateInDTO) (db : DB) (salt : Nat)
    (now : Int) (poolFail : Bool) : RepoResult (UserOutDTO × DB) :=
  match UsersService.create_user user_create_in db salt now poolFail with
  | .panic m => .panic m
  | .ok (created_user, db2) =>
    .ok ({ username := created_user.username, id := created_user.id,
           interests := created_user.interests }, db2)

/-- `src/main.rs` `sign_in` handler (POST /login): calls
`authenticate_user`; on a user, encodes a token (a signing failure becomes
`Err INTERNAL_SERVER_ERROR` via the `map_err` and `?`) and answers
`Ok token`; on `none` answers `Err UNAUTHORIZED`. -/
def sign_in (user_data : SignInData) (db : DB) (poolFail queryFail : Bool)
    (now : Int) (signFail : Bool) :
    RepoResult (Except StatusCode EncodedToken × DB) :=
  match UsersService.authenticate_user user_data.username user_data.password
      db poolFail queryFail with
  | .panic m => .panic m
  | .ok (some user_db, db2) =>
    match encode_jwt user_db.username now signFail with
    | .error _ => .ok (.error .INTERNAL_SERVER_ERROR, db2)
    | .ok token => .ok (.ok token, db2)
  | .ok (none, db2) => .ok (.error .UNAUTHORIZED, db2)

/-- An empty store with the id sequence at 1 (a freshly migrated table). -/
def emptyDB : DB := { rows := [], next_id := 1 }

/-- The stored row of the running-example user John of the spec and the test
fixtures (password `hashed_pwd##`, profile `Programming, gaming`). -/
def johnRow : UserModel :=
  { id := 1, username := "John", hashed_pwd := bcrypt.hash 5 "hashed_pwd##",
    registration_date := 1700000000, interests := "Programming, gaming" }

/-- A store holding exactly the user John. -/
def dbJohn : DB := { rows := [johnRow], next_id := 2 }

/-- The registration body of the example user John. -/
def johnInDTO : UserCreateInDTO :=
  { username := "John", password := "hashed_pwd##", interests := "Programming, gaming" }

/-- A create DTO whose username collides with the stored user John. -/
def johnCreateDTO : UserCreateDTO :=
  { username := "John", hashed_pwd := bcrypt.hash 9 "other",
    registration_date := 1700000001, interests := "x" }

/-- A create DTO whose username is absent from `dbJohn`. -/
def ghostCreateDTO : UserCreateDTO :=
  { username := "ghost", hashed_pwd := bcrypt.hash 9 "boo",
    registration_date := 1700000001, interests := "haunting" }

/-- The row the store assigns when `ghostCreateDTO` is inserted into
`dbJohn`. -/
def ghostRow : UserModel :=
  { id := 2, username := "ghost", hashed_pwd := bcrypt.hash 9 "boo",
    registration_date := 1700000001, interests := "haunting" }

/- ------------------------------------------------------------------ -/
/- Helper lemmas shared by the claim theorems.                         -/
/- ------------------------------------------------------------------ -/

/-- Searching an appended list when the first part has no match. -/
theorem find_append_of_none {α : Type} (p : α → Bool) (l1 l2 : List α)
    (h : l1.find? p = none) : (l1 ++ l2).find? p = l2.find? p := by
  induction l1 with
  | nil => simp
  | cons a l ih =>
    cases hpa : p a with
    | true => simp [List.find?_cons, hpa] at h
    | false =>
      simp only [List.find?_cons, hpa] at h
      simpa [List.find?_cons, hpa] using ih h

/-- A list with no satisfying element has no `find?` result. -/
theorem find_none_of_any_false {α : Type} (p : α → Bool) (l : List α)
    (h : l.any p = false) : l.find? p = none := by
  induction l with
  | nil => rfl
  | cons a l ih =>
    cases hpa : p a with
    | true => simp [List.any_cons, hpa] at h
    | false =>
      simp only [List.any_cons, hpa, Bool.false_or] at h
      simp [List.find?_cons, hpa, ih h]

/-- Closed form of `get_one_by` on a `Username Equals` specification. -/
theorem get_one_by_username_eq (u : String) (uow : UnitOfWork) (qf : Bool) :
    UsersRepo.get_one_by (.Username (.Equals u)) uow qf =
      .ok ((if qf then none
            else (uow.db.rows.find? fun r => r.username == u).map UserModel.to_db_dto),
           uow) := by
  cases qf with
  | true => simp [UsersRepo.get_one_by, runQuery]
  | false =>
    cases h : uow.db.rows.find? fun r => r.username == u with
    | none => simp [UsersRepo.get_one_by, runQuery, h]
    | some m => simp [UsersRepo.get_one_by, runQuery, h]

/-- Closed form of `get_one_by` on an `Id Equals` specification. -/
theorem get_one_by_id_eq (i : Int) (uow : UnitOfWork) (qf : Bool) :
    UsersRepo.get_one_by (.Id (.Equals i)) uow qf =
      .ok ((if qf then none
            else (uow.db.rows.find? fun r => r.id == i).map UserModel.to_db_dto),
           uow) := by
  cases qf with
  | true => simp [UsersRepo.get_one_by, runQuery]
  | false =>
    cases h : uow.db.rows.find? fun r => r.id == i with
    | none => simp [UsersRepo.get_one_by, runQuery, h]
    | some m => simp [UsersRepo.get_one_by, runQuery, h]

/-- Closed form of `authenticate_user` with a successful pool checkout. -/
theorem authenticate_user_eq (u p : String) (db : DB) (qf : Bool) :
    UsersService.authenticate_user u p db false qf =
      .ok ((match (if qf then none else db.rows.find? fun r => r.username == u) with
            | some m => if bcrypt.verify p m.hashed_pwd then some m.to_db_dto else none
            | none => none), db) := by
  cases qf with
  | true =>
    simp [UsersService.authenticate_user, UnitOfWorkFactory.create_uow,
          get_one_by_username_eq]
  | false =>
    cases h : db.rows.find? fun r => r.username == u with
    | none =>
      simp [UsersService.authenticate_user, UnitOfWorkFactory.create_uow,
            get_one_by_username_eq, h]
    | some m =>
      simp only [UsersService.authenticate_user, UnitOfWorkFactory.create_uow,
            Bool.false_eq_true, if_false, get_one_by_username_eq, h, UserModel.to_db_dto,
            Option.map_some]
      have hd : m.to_db_dto.hashed_pwd = m.hashed_pwd := rfl
      cases hv : bcrypt.verify p m.hashed_pwd <;>
        simp [hd, hv, UserModel.to_db_dto]

/-- Closed form of `find_by_username` with a successful pool checkout. -/
theorem find_by_username_eq (u : String) (db : DB) (qf : Bool) :
    UsersService.find_by_username u db false qf =
      .ok ((if qf then none
            else (db.rows.find? fun r => r.username == u).map UserModel.to_db_dto),
           db) := by
  simp [UsersService.find_by_username, UnitOfWorkFactory.create_uow,
        get_one_by_username_eq]

/- ------------------------------------------------------------------ -/
/- Claim theorems.                                                     -/
/- ------------------------------------------------------------------ -/

/-- Claim C1: `authenticate_user` looks the user up by username and returns
a user exactly when the lookup finds a row and `bcrypt.verify` accepts the
plaintext against the stored hash; a missing username and a hash mismatch
both return `none`, and the values returned in the two failure cases are
identical. -/
theorem authenticate_only_on_verify (username password : String) (db : DB) :
    (UsersService.authenticate_user username password db false false =
      .ok ((match db.rows.find? (fun r => r.username == username) with
            | some m =>
              if bcrypt.verify password m.hashed_pwd then some m.to_db_dto else none
            | none => none), db)) ∧
    (∀ username2 password2 m,
      db.rows.find? (fun r => r.username == username) = none →
      db.rows.find? (fun r => r.username == username2) = some m →
      bcrypt.verify password2 m.hashed_pwd = false →
      UsersService.authenticate_user username password db false false =
        UsersService.authenticate_user username2 password2 db false false) := by
  constructor
  · simpa using authenticate_user_eq username password db false
  · intro username2 password2 m h1 h2 h3
    rw [authenticate_user_eq, authenticate_user_eq]
    simp [h1, h2, h3]

/-- Witness for C1 at the spec's concrete example: an unknown username and a
wrong password on the one-user store produce the same returned value. -/
theorem authenticate_only_on_verify_wit :
    UsersService.authenticate_user "ghost" "anything" dbJohn false false =
      UsersService.authenticate_user "John" "wrong" dbJohn false false :=
  (authenticate_only_on_verify "ghost" "anything" dbJohn).2 "John" "wrong" johnRow
    (by rfl) (by rfl) (by rfl)

/-- Claim C2: the response of the POST /register handler is exactly the
store-assigned id, the registered username and the registered profile field;
being fully determined by these, it carries no plaintext-password or
password-hash material in any field (the response does not depend on the
password or the salt at all). -/
theorem register_response_public_fields (inp : UserCreateInDTO) (db : DB)
    (salt : Nat) (now : Int)
    (h : (db.rows.any fun r => r.username == inp.username) = false) :
    create_user inp db salt now false =
      .ok ({ id := db.next_id, username := inp.username, interests := inp.interests },
           { rows := db.rows ++
               [{ id := db.next_id, username := inp.username,
                  hashed_pwd := bcrypt.hash salt inp.password,
                  registration_date := now, interests := inp.interests }],
             next_id := db.next_id + 1 }) := by
  simp [create_user, UsersService.create_user, UnitOfWorkFactory.create_uow,
        UsersRepo.create_from_dto, dbInsert, h, UserModel.to_db_dto]

/-- Witness for C2 at the spec's concrete example registration on an empty
store: the response is id 1, username John, profile field as registered. -/
theorem register_response_public_fields_wit :
    create_user johnInDTO emptyDB 5 1700000000 false =
      .ok ({ id := 1, username := "John", interests := "Programming, gaming" },
           { rows := [{ id := 1, username := "John",
                        hashed_pwd := bcrypt.hash 5 "hashed_pwd##",
                        registration_date := 1700000000,
                        interests := "Programming, gaming" }],
             next_id := 2 }) := by
  have := register_response_public_fields johnInDTO emptyDB 5 1700000000 (by rfl)
  simpa [johnInDTO, emptyDB] using this

/-- Claim C3: the token produced by `encode_jwt` carries a claim set whose
username equals the input username and whose `exp` minus `iat` is exactly
86400 seconds, `iat` being the issue-time clock reading and `exp` the same
reading plus 24 hours (for any clock reading in the representable epoch
range). -/
theorem encode_jwt_claim_set (username : String) (now : Int)
    (h0 : 0 ≤ now) (h1 : now + 86400 < 2 ^ 64) :
    ∃ t, encode_jwt username now false = .ok t ∧
      t.claims.username = username ∧
      t.claims.exp - t.claims.iat = 86400 ∧
      t.claims.iat = toUsize now ∧
      t.claims.exp = toUsize (now + 86400) := by
  refine ⟨{ claims := { iat := toUsize now, exp := toUsize (now + 86400),
                        username := username }, secret := "random" },
          ?_, rfl, ?_, rfl, rfl⟩
  · simp [encode_jwt]
  · have e1 : (now + 86400) % 2 ^ 64 = now + 86400 :=
      Int.emod_eq_of_lt (by omega) h1
    have e2 : now % 2 ^ 64 = now := Int.emod_eq_of_lt h0 (by omega)
    simp [toUsize, e1, e2]
    omega

/-- Witness for C3 at a concrete clock reading. -/
theorem encode_jwt_claim_set_wit :
    ∃ t, encode_jwt "John" 1700000000 false = .ok t ∧
      t.claims.username = "John" ∧
      t.claims.exp - t.claims.iat = 86400 ∧
      t.claims.iat = toUsize 1700000000 ∧
      t.claims.exp = toUsize (1700000000 + 86400) :=
  encode_jwt_claim_set "John" 1700000000 (by norm_num) (by norm_num)

/-- Claim C4: after a successful registration of a username not already in
the store, authenticating with the same username and the same plaintext
password returns a non-absent result. -/
theorem register_then_authenticate (inp : UserCreateInDTO) (db : DB)
    (salt : Nat) (now : Int)
    (h : (db.rows.any fun r => r.username == inp.username) = false) :
    ∃ u db2 v db3,
      UsersService.create_user inp db salt now false = .ok (u, db2) ∧
      UsersService.authenticate_user inp.username inp.password db2 false false =
        .ok (some v, db3) := by
  have hfind : db.rows.find? (fun r => r.username == inp.username) = none :=
    find_none_of_any_false _ _ h
  refine ⟨({ id := db.next_id, username := inp.username,
             hashed_pwd := bcrypt.hash salt inp.password,
             registration_date := now,
             interests := inp.interests } : UserModel).to_db_dto,
          { rows := db.rows ++
              [{ id := db.next_id, username := inp.username,
                 hashed_pwd := bcrypt.hash salt inp.password,
                 registration_date := now, interests := inp.interests }],
            next_id := db.next_id + 1 },
          ({ id := db.next_id, username := inp.username,
             hashed_pwd := bcrypt.hash salt inp.password,
             registration_date := now,
             interests := inp.interests } : UserModel).to_db_dto,
          { rows := db.rows ++
              [{ id := db.next_id, username := inp.username,
                 hashed_pwd := bcrypt.hash salt inp.password,
                 registration_date := now, interests := inp.interests }],
            next_id := db.next_id + 1 },
          ?_, ?_⟩
  · simp [UsersService.create_user, UnitOfWorkFactory.create_uow,
          UsersRepo.create_from_dto, dbInsert, h]
  · rw [authenticate_user_eq]
    rw [if_neg (by simp)]
    rw [find_append_of_none _ _ _ hfind]
    simp [List.find?, bcrypt.verify, bcrypt.hash]

/-- Witness for C4: registering the example user John on the empty store and
then authenticating with the same credentials succeeds. -/
theorem register_then_authenticate_wit :
    ∃ u db2 v db3,
      UsersService.create_user johnInDTO emptyDB 5 1700000000 false = .ok (u, db2) ∧
      UsersService.authenticate_user johnInDTO.username johnInDTO.password db2
          false false = .ok (some v, db3) :=
  register_then_authenticate johnInDTO emptyDB 5 1700000000 (by rfl)

/-- Claim C5: `get_one_by` fails loudly (panics with the contract-violation
message) on every specification that is not an equality on id or on
username, and never silently returns a row or absent for such a shape; on
the two equality shapes it does not take the panic path. -/
theorem get_one_by_unsupported_shape_panics (spec : UsersSpecification)
    (uow : UnitOfWork) (qf : Bool) :
    (spec.isEquals = false →
      UsersRepo.get_one_by spec uow qf = .panic unsupported_spec_msg) ∧
    (spec.isEquals = true → ∃ r, UsersRepo.get_one_by spec uow qf = .ok r) := by
  cases spec with
  | Id c =>
    cases c with
    | Equals i =>
      exact ⟨fun h => by simp [UsersSpecification.isEquals] at h,
             fun _ => ⟨_, get_one_by_id_eq i uow qf⟩⟩
    | Gte i => exact ⟨fun _ => rfl, fun h => by simp [UsersSpecification.isEquals] at h⟩
    | Lte i => exact ⟨fun _ => rfl, fun h => by simp [UsersSpecification.isEquals] at h⟩
    | Lt i => exact ⟨fun _ => rfl, fun h => by simp [UsersSpecification.isEquals] at h⟩
    | Gt i => exact ⟨fun _ => rfl, fun h => by simp [UsersSpecification.isEquals] at h⟩
  | Username c =>
    cases c with
    | Equals s =>
      exact ⟨fun h => by simp [UsersSpecification.isEquals] at h,
             fun _ => ⟨_, get_one_by_username_eq s uow qf⟩⟩
    | Gte s => exact ⟨fun _ => rfl, fun h => by simp [UsersSpecification.isEquals] at h⟩
    | Lte s => exact ⟨fun _ => rfl, fun h => by simp [UsersSpecification.isEquals] at h⟩
    | Lt s => exact ⟨fun _ => rfl, fun h => by simp [UsersSpecification.isEquals] at h⟩
    | Gt s => exact ⟨fun _ => rfl, fun h => by simp [UsersSpecification.isEquals] at h⟩

/-- Witness for C5: a range comparison panics on the one-user store, while a
username equality returns a value. -/
theorem get_one_by_unsupported_shape_panics_wit :
    UsersRepo.get_one_by (.Id (.Gt 0)) { db := dbJohn } false =
      .panic unsupported_spec_msg ∧
    ∃ r, UsersRepo.get_one_by (.Username (.Equals "John")) { db := dbJohn } false =
      .ok r :=
  ⟨(get_one_by_unsupported_shape_panics (.Id (.Gt 0)) { db := dbJohn } false).1 rfl,
   (get_one_by_unsupported_shape_panics (.Username (.Equals "John"))
      { db := dbJohn } false).2 rfl⟩

/-- Claim C6: on the two supported equality shapes a low-level query error
makes `get_one_by` return absent, exactly the value returned on a confirmed
miss — a caller cannot distinguish a query error from no matching row. -/
theorem query_error_returns_absent (db : DB) (u : String) (i : Int) :
    UsersRepo.get_one_by (.Username (.Equals u)) { db := db } true =
      .ok (none, { db := db }) ∧
    UsersRepo.get_one_by (.Id (.Equals i)) { db := db } true =
      .ok (none, { db := db }) ∧
    ((db.rows.find? fun r => r.username == u) = none →
      UsersRepo.get_one_by (.Username (.Equals u)) { db := db } true =
        UsersRepo.get_one_by (.Username (.Equals u)) { db := db } false) ∧
    ((db.rows.find? fun r => r.id == i) = none →
      UsersRepo.get_one_by (.Id (.Equals i)) { db := db } true =
        UsersRepo.get_one_by (.Id (.Equals i)) { db := db } false) := by
  refine ⟨?_, ?_, ?_, ?_⟩
  · simpa using get_one_by_username_eq u { db := db } true
  · simpa using get_one_by_id_eq i { db := db } true
  · intro h
    rw [get_one_by_username_eq, get_one_by_username_eq]
    simp [h]
  · intro h
    rw [get_one_by_id_eq, get_one_by_id_eq]
    simp [h]

/-- Witness for C6: for the username ghost, which is absent from the
one-user store, the erroring query and the error-free query return the same
value. -/
theorem query_error_returns_absent_wit :
    UsersRepo.get_one_by (.Username (.Equals "ghost")) { db := dbJohn } true =
      UsersRepo.get_one_by (.Username (.Equals "ghost")) { db := dbJohn } false :=
  (query_error_returns_absent dbJohn "ghost" 42).2.2.1 (by rfl)

/-- Claim C7: with a successful pool checkout the POST /login handler
produces exactly one of three outcomes — a token when authentication yields
a user and signing succeeds, UNAUTHORIZED when authentication yields absent,
and INTERNAL_SERVER_ERROR when authentication yields a user but signing
fails; no other status is produced. -/
theorem sign_in_three_outcomes (user_data : SignInData) (db : DB)
    (qf sf : Bool) (now : Int) :
    ∃ resp db2,
      sign_in user_data db false qf now sf = .ok (resp, db2) ∧
      ((∃ t, resp = .ok t) ∨ resp = .error .UNAUTHORIZED ∨
        resp = .error .INTERNAL_SERVER_ERROR) ∧
      (∀ u db3,
        UsersService.authenticate_user user_data.username user_data.password db
            false qf = .ok (some u, db3) →
        (sf = false → ∃ t, encode_jwt u.username now false = .ok t ∧ resp = .ok t) ∧
        (sf = true → resp = .error .INTERNAL_SERVER_ERROR)) ∧
      (∀ db3,
        UsersService.authenticate_user user_data.username user_data.password db
            false qf = .ok (none, db3) →
        resp = .error .UNAUTHORIZED) := by
  obtain ⟨a, ha⟩ : ∃ a, UsersService.authenticate_user user_data.username
      user_data.password db false qf = .ok (a, db) :=
    ⟨_, authenticate_user_eq _ _ _ _⟩
  cases a with
  | none =>
    refine ⟨.error .UNAUTHORIZED, db, ?_, .inr (.inl rfl), ?_, ?_⟩
    · simp [sign_in, ha]
    · intro u db3 hu
      rw [ha] at hu
      simp at hu
    · intro db3 _
      rfl
  | some u =>
    cases sf with
    | false =>
      refine ⟨.ok { claims := { iat := toUsize now,
                                exp := toUsize (now + 24 * 60 * 60),
                                username := u.username }, secret := "random" },
              db, ?_, .inl ⟨_, rfl⟩, ?_, ?_⟩
      · simp [sign_in, ha, encode_jwt]
      · intro u2 db3 hu
        rw [ha] at hu
        simp at hu
        obtain ⟨h1, _⟩ := hu
        subst h1
        exact ⟨fun _ => ⟨_, rfl, rfl⟩, fun hsf => by simp at hsf⟩
      · intro db3 hu
        rw [ha] at hu
        simp at hu
    | true =>
      refine ⟨.error .INTERNAL_SERVER_ERROR, db, ?_, .inr (.inr rfl), ?_, ?_⟩
      · simp [sign_in, ha, encode_jwt]
      · intro u2 db3 hu
        exact ⟨fun hsf => by simp at hsf, fun _ => rfl⟩
      · intro db3 hu
        rw [ha] at hu
        simp at hu

/-- Witness for C7: a login of the example user against the one-user store
returns an outcome in the allowed set. -/
theorem sign_in_three_outcomes_wit :
    ∃ resp db2,
      sign_in { username := "John", password := "hashed_pwd##" } dbJohn false false
          1700000000 false = .ok (resp, db2) ∧
      ((∃ t, resp = .ok t) ∨ resp = .error .UNAUTHORIZED ∨
        resp = .error .INTERNAL_SERVER_ERROR) := by
  obtain ⟨resp, db2, h1, h2, h3, h4⟩ :=
    sign_in_three_outcomes { username := "John", password := "hashed_pwd##" }
      dbJohn false false 1700000000
  exact ⟨resp, db2, h1, h2⟩

/-- Claim C8: the pool checkout of `create_uow` panics exactly when the
checkout fails, and `create_from_dto` panics exactly when the store rejects
the insert (duplicate username); neither returns a typed error value, and a
successful checkout or insert never takes the fatal path. -/
theorem fatal_only_on_checkout_or_insert_failure (db : DB) (dto : UserCreateDTO) :
    UnitOfWorkFactory.create_uow db true =
      .panic "called Result unwrap on an Err value" ∧
    UnitOfWorkFactory.create_uow db false = .ok { db := db } ∧
    (((db.rows.any fun r => r.username == dto.username) = true) →
      UsersRepo.create_from_dto dto { db := db } = .panic "Error saving new post") ∧
    (((db.rows.any fun r => r.username == dto.username) = false) →
      ∃ u2 uow2, UsersRepo.create_from_dto dto { db := db } = .ok (u2, uow2)) := by
  refine ⟨rfl, rfl, ?_, ?_⟩
  · intro h
    simp [UsersRepo.create_from_dto, dbInsert, h]
  · intro h
    refine ⟨(UserModel.mk db.next_id dto.username dto.hashed_pwd
               dto.registration_date dto.interests).to_db_dto,
            UnitOfWork.mk (DB.mk (db.rows ++ [UserModel.mk db.next_id dto.username
               dto.hashed_pwd dto.registration_date dto.interests]) (db.next_id + 1)),
            ?_⟩
    simp [UsersRepo.create_from_dto, dbInsert, h]

/-- Witness for C8: inserting a duplicate of John panics, inserting a fresh
username succeeds. -/
theorem fatal_only_on_checkout_or_insert_failure_wit :
    UsersRepo.create_from_dto johnCreateDTO { db := dbJohn } =
      .panic "Error saving new post" ∧
    UnitOfWorkFactory.create_uow dbJohn true =
      .panic "called Result unwrap on an Err value" :=
  ⟨(fatal_only_on_checkout_or_insert_failure dbJohn johnCreateDTO).2.2.1 (by rfl),
   (fatal_only_on_checkout_or_insert_failure dbJohn johnCreateDTO).1⟩

/-- Claim C9: no operation of the system other than `create_from_dto` (and
the create operations built on it) changes the stored rows — every read
path returns the store unchanged — and a successful create appends exactly
one new row, leaving every existing row and all its fields intact. -/
theorem rows_never_updated_or_deleted :
    (∀ spec uow qf r uow2,
      UsersRepo.get_one_by spec uow qf = .ok (r, uow2) → uow2 = uow) ∧
    (∀ u db pf qf r db2,
      UsersService.find_by_username u db pf qf = .ok (r, db2) → db2 = db) ∧
    (∀ u p db pf qf r db2,
      UsersService.authenticate_user u p db pf qf = .ok (r, db2) → db2 = db) ∧
    (∀ data db pf qf now sf r db2,
      sign_in data db pf qf now sf = .ok (r, db2) → db2 = db) ∧
    (∀ dto uow u uow2,
      UsersRepo.create_from_dto dto uow = .ok (u, uow2) →
      uow2.db.rows = uow.db.rows ++
        [UserModel.mk uow.db.next_id dto.username dto.hashed_pwd
          dto.registration_date dto.interests]) ∧
    (∀ inp db salt now pf u db2,
      UsersService.create_user inp db salt now pf = .ok (u, db2) →
      ∃ row, db2.rows = db.rows ++ [row]) ∧
    (∀ inp db salt now pf out db2,
      create_user inp db salt now pf = .ok (out, db2) →
      ∃ row, db2.rows = db.rows ++ [row]) := by
  have hget : ∀ spec uow qf r uow2,
      UsersRepo.get_one_by spec uow qf = RepoResult.ok (r, uow2) → uow2 = uow := by
    intro spec uow qf r uow2 h
    cases spec with
    | Id c =>
      cases c with
      | Equals i =>
        rw [get_one_by_id_eq] at h
        simp at h
        exact h.2.symm
      | Gte i => simp [UsersRepo.get_one_by] at h
      | Lte i => simp [UsersRepo.get_one_by] at h
      | Lt i => simp [UsersRepo.get_one_by] at h
      | Gt i => simp [UsersRepo.get_one_by] at h
    | Username c =>
      cases c with
      | Equals s =>
        rw [get_one_by_username_eq] at h
        simp at h
        exact h.2.symm
      | Gte s => simp [UsersRepo.get_one_by] at h
      | Lte s => simp [UsersRepo.get_one_by] at h
      | Lt s => simp [UsersRepo.get_one_by] at h
      | Gt s => simp [UsersRepo.get_one_by] at h
  have hcreate : ∀ dto uow u uow2,
      UsersRepo.create_from_dto dto uow = RepoResult.ok (u, uow2) →
      uow2.db.rows = uow.db.rows ++
        [UserModel.mk uow.db.next_id dto.username dto.hashed_pwd
          dto.registration_date dto.interests] := by
    intro dto uow u uow2 h
    cases hdup : uow.db.rows.any fun r => r.username == dto.username with
    | true => simp [UsersRepo.create_from_dto, dbInsert, hdup] at h
    | false =>
      simp [UsersRepo.create_from_dto, dbInsert, hdup] at h
      rw [← h.2]
  refine ⟨hget, ?_, ?_, ?_, hcreate, ?_, ?_⟩
  · intro u db pf qf r db2 h
    cases pf with
    | true =>
      simp [UsersService.find_by_username, UnitOfWorkFactory.create_uow] at h
    | false =>
      rw [find_by_username_eq] at h
      simp at h
      exact h.2.symm
  · intro u p db pf qf r db2 h
    cases pf with
    | true =>
      simp [UsersService.authenticate_user, UnitOfWorkFactory.create_uow] at h
    | false =>
      rw [authenticate_user_eq] at h
      simp at h
      exact h.2.symm
  · intro data db pf qf now sf r db2 h
    cases pf with
    | true =>
      simp [sign_in, UsersService.authenticate_user,
            UnitOfWorkFactory.create_uow] at h
    | false =>
      obtain ⟨a, ha⟩ : ∃ a, UsersService.authenticate_user data.username
          data.password db false qf = .ok (a, db) :=
        ⟨_, authenticate_user_eq _ _ _ _⟩
      cases a with
      | none =>
        simp [sign_in, ha] at h
        exact h.2.symm
      | some u =>
        cases sf with
        | false =>
          simp [sign_in, ha, encode_jwt] at h
          exact h.2.symm
        | true =>
          simp [sign_in, ha, encode_jwt] at h
          exact h.2.symm
  · intro inp db salt now pf u db2 h
    cases pf with
    | true =>
      simp [UsersService.create_user, UnitOfWorkFactory.create_uow] at h
    | false =>
      cases hdup : db.rows.any fun r => r.username == inp.username with
      | true =>
        simp [UsersService.create_user, UnitOfWorkFactory.create_uow,
              UsersRepo.create_from_dto, dbInsert, hdup] at h
      | false =>
        simp [UsersService.create_user, UnitOfWorkFactory.create_uow,
              UsersRepo.create_from_dto, dbInsert, hdup] at h
        exact ⟨_, by rw [← h.2]⟩
  · intro inp db salt now pf out db2 h
    cases pf with
    | true =>
      simp [create_user, UsersService.create_user,
            UnitOfWorkFactory.create_uow] at h
    | false =>
      cases hdup : db.rows.any fun r => r.username == inp.username with
      | true =>
        simp [create_user, UsersService.create_user, UnitOfWorkFactory.create_uow,
              UsersRepo.create_from_dto, dbInsert, hdup] at h
      | false =>
        simp [create_user, UsersService.create_user, UnitOfWorkFactory.create_uow,
              UsersRepo.create_from_dto, dbInsert, hdup] at h
        exact ⟨_, by rw [← h.2]⟩

/-- Witness for C9: a concrete successful authentication leaves the one-user
store unchanged, and a concrete successful insert appends exactly one row. -/
theorem rows_never_updated_or_deleted_wit :
    dbJohn = dbJohn ∧
    (UnitOfWork.mk (DB.mk (dbJohn.rows ++ [ghostRow]) 3)).db.rows =
      (UnitOfWork.mk dbJohn).db.rows ++
        [UserModel.mk (UnitOfWork.mk dbJohn).db.next_id ghostCreateDTO.username
          ghostCreateDTO.hashed_pwd ghostCreateDTO.registration_date
          ghostCreateDTO.interests] :=
  ⟨rows_never_updated_or_deleted.2.2.1 "John" "hashed_pwd##" dbJohn false false
      (some johnRow.to_db_dto) dbJohn (by rfl),
   rows_never_updated_or_deleted.2.2.2.2.1 ghostCreateDTO (UnitOfWork.mk dbJohn)
      ghostRow.to_db_dto (UnitOfWork.mk (DB.mk (dbJohn.rows ++ [ghostRow]) 3))
      (by rfl)⟩

/-- Claim C10 (implicit): every specification the service layer constructs —
in `find_by_username` and in `authenticate_user` — is a `Username Equals`
specification, so with a successful pool checkout no service-level call can
reach the fatal unsupported-specification branch of `get_one_by`: both
service lookups always return a value. -/
theorem service_layer_specs_are_equals (u p : String) (db : DB) (qf : Bool) :
    (UsersSpecification.Username (CompType.Equals u)).isEquals = true ∧
    (∃ r, UsersService.find_by_username u db false qf = .ok r) ∧
    (∃ r, UsersService.authenticate_user u p db false qf = .ok r) :=
  ⟨rfl, ⟨_, find_by_username_eq u db qf⟩, ⟨_, authenticate_user_eq u p db qf⟩⟩
